import Mathlib

/-
  Verification development for the apko build-and-provenance core.

  Shallow embedding of:
  - pkg/sbom/generator/spdx/spdx.go   (identifier sanitizing, SPDX document generation)
  - pkg/build/build_implementation.go (tarball encoder wrapper, mutation pipeline driver)

  Strings are modelled as Lean `String`; where the Go code works on raw
  bytes (the identifier-sanitizing transform iterates over the bytes of a
  UTF-8 string), we work on `List Nat` of byte values together with an
  explicit UTF-8 encoder.
-/

set_option maxRecDepth 4000

namespace Apko

/-! ## Byte-level string model -/

/-- UTF-8 encoding of a single character, as the list of its byte values. -/
def utf8EncodeChar (c : Char) : List Nat :=
  let n := c.toNat
  if n < 0x80 then [n]
  else if n < 0x800 then [0xC0 + n / 0x40, 0x80 + n % 0x40]
  else if n < 0x10000 then
    [0xE0 + n / 0x1000, 0x80 + (n / 0x40) % 0x40, 0x80 + n % 0x40]
  else
    [0xF0 + n / 0x40000, 0x80 + (n / 0x1000) % 0x40, 0x80 + (n / 0x40) % 0x40,
      0x80 + n % 0x40]

/-- The UTF-8 bytes of a string (Go strings are byte sequences holding UTF-8). -/
def strBytes (s : String) : List Nat :=
  s.data.foldr (fun c acc => utf8EncodeChar c ++ acc) []

/-- Decimal digit characters (as byte values) of `n`, most significant first;
fuel-based structural recursion modelling Go's `fmt.Sprintf("%d", n)`. -/
def natDecAux (fuel : Nat) (n : Nat) : List Nat :=
  match fuel with
  | 0 => []
  | fuel + 1 => if n < 10 then [48 + n] else natDecAux fuel (n / 10) ++ [48 + n % 10]

/-- Decimal digit bytes of `n` (`fmt.Sprintf("%d", n)` in the source). -/
def natDecDigits (n : Nat) : List Nat := natDecAux (n + 1) n

/-! ## The identifier-sanitizing transform (spdx.go:35,53-62)

`validIDCharsRe = [^a-zA-Z0-9-.]+` matches every maximal run of bytes outside
the allowed set (every byte of a multi-byte rune is outside it).
`stringToIdentifier` replaces each such run by the concatenation, over the
run's bytes, of `"C"` followed by the byte's decimal value: Go's
`string(s[i])` converts the byte value to the code point of that value, and
`utf8.DecodeRuneInString` then reads that code point back, so the escape code
of a byte is the byte value itself. -/

/-- A byte allowed by `validIDCharsRe`, i.e. in `[a-zA-Z0-9-.]`. -/
def allowedByte (b : Nat) : Bool :=
  (97 ≤ b && b ≤ 122) || (65 ≤ b && b ≤ 90) || (48 ≤ b && b ≤ 57) || b == 45 || b == 46

/-- Escape of a single disallowed byte: `"C"` (byte 67) followed by the byte's
decimal value (`fmt.Sprintf("%sC%d", r, uc)` in the source). -/
def escapeByte (b : Nat) : List Nat := 67 :: natDecDigits b

/-- The replacement callback of `stringToIdentifier`: escape every byte of
the matched run, in order (the `for i := 0; i < len(s); i++` loop). -/
def escapeRun : List Nat → List Nat
  | [] => []
  | b :: t => escapeByte b ++ escapeRun t

/-- `stringToIdentifier`, faithful to the regex structure: each maximal run of
disallowed bytes is replaced by the per-byte escape of the run
(`validIDCharsRe.ReplaceAllStringFunc`). -/
def stringToIdentifierRuns (l : List Nat) : List Nat :=
  match h : l with
  | [] => []
  | b :: t =>
    if allowedByte b then
      b :: stringToIdentifierRuns t
    else
      escapeRun (b :: t.takeWhile (fun x => !allowedByte x)) ++
        stringToIdentifierRuns (t.dropWhile (fun x => !allowedByte x))
termination_by l.length
decreasing_by
  · simp [h]
  · simp only [h, List.length_cons]
    have := (List.dropWhile_sublist (l := t) (fun x => !allowedByte x)).length_le
    omega

/-- `stringToIdentifier` in per-byte form: because the replacement callback
escapes a run byte by byte, replacing runs is the same as replacing each
disallowed byte independently (proved as `stringToIdentifierRuns_eq`).
This structural form is used throughout the development. -/
def stringToIdentifier : List Nat → List Nat
  | [] => []
  | b :: t =>
    if allowedByte b then b :: stringToIdentifier t
    else escapeByte b ++ stringToIdentifier t

/-- String-level wrapper of the transform; the output bytes are all ASCII so
the byte list converts back to a string character by character. -/
def stringToIdentifierStr (s : String) : String :=
  String.mk ((stringToIdentifier (strBytes s)).map Char.ofNat)

/-! ## SPDX document model (spdx.go:282-331) -/

structure Checksum where
  Algorithm : String
  Value : String
deriving DecidableEq

structure ExternalRef where
  Category : String
  Locator : String
  RefType : String
deriving DecidableEq

structure Package where
  ID : String
  Name : String
  Version : String
  FilesAnalyzed : Bool
  LicenseConcluded : String
  LicenseDeclared : String
  Description : String
  DownloadLocation : String
  Originator : String
  SourceInfo : String
  CopyrightText : String
  Checksums : List Checksum
  ExternalRefs : List ExternalRef
deriving DecidableEq

structure Relationship where
  Element : String
  RelType : String
  Related : String
deriving DecidableEq

structure CreationInfo where
  Created : String
  Creators : List String
  LicenseListVersion : String
deriving DecidableEq

structure Document where
  ID : String
  Name : String
  Version : String
  CreationInfo : CreationInfo
  DataLicense : String
  Namespace : String
  DocumentDescribes : List String
  Packages : List Package
  Relationships : List Relationship
deriving DecidableEq

/-! ## SBOM generator inputs (pkg/sbom/options, external to src/) -/

/-- Image-level metadata consumed by the SPDX generator. -/
structure ImageInfo where
  Name : String := ""
  Tag : String := ""
  Repository : String := ""
  Arch : String := ""
  ImageDigest : String := ""
  LayerDigest : String := ""
  Reference : String := ""
  SourceDateEpoch : Int := 0
deriving DecidableEq

structure OSInfo where
  ID : String := ""
  Version : String := ""
deriving DecidableEq

/-- Fields of `repository.Package` read by the generator. -/
structure ApkPackage where
  Name : String := ""
  Version : String := ""
  License : String := ""
  Description : String := ""
  URL : String := ""
  Maintainer : String := ""
  Checksum : List Nat := []
deriving DecidableEq

structure SbomOptions where
  ImageInfo : ImageInfo := {}
  OS : OSInfo := {}
  Packages : List ApkPackage := []
deriving DecidableEq

/-! ## External helpers modelled as pure functions -/

/-- Modelled from the spec: the external package-url library renders a purl
string from type, namespace, name, version, qualifiers and subpath; a pure
function of its arguments (the claims do not depend on its exact shape). -/
def purlString (ptype ns name version : String) (qualifiers : List (String × String))
    (subpath : String) : String :=
  "pkg:" ++ ptype ++ "/" ++ (if ns = "" then "" else ns ++ "/") ++ name ++ "@" ++ version
    ++ (qualifiers.foldl (fun acc q => acc ++ (if acc = "" then "?" else "&") ++ q.1 ++ "=" ++ q.2) "")
    ++ (if subpath = "" then "" else "#" ++ subpath)

/-- Modelled from the spec: `Arch.ToOCIPlatform().Architecture` of the
external types package; architectures are carried as plain strings here. -/
def archToOCI (a : String) : String := a

/-- Modelled from the spec: `Arch.ToAPK()` of the external types package. -/
def archToAPK (a : String) : String := a

/-- Modelled from the spec: `version.GetVersionInfo().GitVersion`, a
process-wide constant string. -/
def gitVersion : String := "devel"

/-- Modelled from the spec: RFC3339 rendering of the fixed source timestamp,
a pure function of the timestamp. -/
def formatRFC3339 (t : Int) : String := "1970-01-01T00:00:00Z+" ++ toString t

/-- One hex digit (lowercase), as in Go's `%x`. -/
def hexDigit (n : Nat) : Nat := if n < 10 then 48 + n else 87 + n

/-- `fmt.Sprintf("%x", bytes)`: two lowercase hex digits per byte. -/
def hexOfBytes (l : List Nat) : String :=
  String.mk (l.foldr (fun b acc =>
    Char.ofNat (hexDigit (b / 16 % 16)) :: Char.ofNat (hexDigit (b % 16)) :: acc) [])

/-- Does the first list lead the second (`strings.HasPrefix` on char lists)? -/
def leadsList : List Char → List Char → Bool
  | [], _ => true
  | _ :: _, [] => false
  | c :: p, d :: s => c == d && leadsList p s

/-- `strings.TrimPrefix(s, "sha256:")` (spdx.go:175): drop the leading
`"sha256:"` when present, otherwise return the string unchanged. -/
def trimSha256 (s : String) : String :=
  if leadsList "sha256:".data s.data then String.mk (s.data.drop 7) else s

/-- Modelled from the spec: the algorithm part of a combined
"algorithm:hex" digest string — everything before the first colon. -/
def digestAlgo (d : String) : String :=
  String.mk (d.data.takeWhile (fun c => c ≠ ':'))

/-- Modelled from the spec: the hex part of a combined "algorithm:hex"
digest string — everything after the first colon. -/
def digestHex (d : String) : String :=
  String.mk ((d.data.dropWhile (fun c => c ≠ ':')).drop 1)

def NOASSERTION : String := "NOASSERTION"

/-- The `mmMain` qualifier map of `imagePackage`/`layerPackage`
(spdx.go:150-159, 245-254): tag, repository_url and arch, each only when
non-empty; modelled as an association list. -/
def ociQualifiers (opts : SbomOptions) : List (String × String) :=
  (if opts.ImageInfo.Tag ≠ "" then [("tag", opts.ImageInfo.Tag)] else [])
    ++ (if opts.ImageInfo.Repository ≠ "" then [("repository_url", opts.ImageInfo.Repository)] else [])
    ++ (if opts.ImageInfo.Arch ≠ "" then [("arch", archToOCI opts.ImageInfo.Arch)] else [])

/-! ## The SPDX generator (spdx.go:64-280) -/

/-- `layerPackage` (spdx.go:229-280): the always-present layer node. -/
def layerPackage (opts : SbomOptions) : Package :=
  let name0 := opts.ImageInfo.LayerDigest
  let name1 := if opts.ImageInfo.Name ≠ "" then
      opts.ImageInfo.Name ++ "@" ++ opts.ImageInfo.LayerDigest
    else name0
  let layerPackageName := if opts.ImageInfo.Reference ≠ "" then
      "SPDXRef-" ++ (if opts.ImageInfo.Reference.data.contains '/' then ""
        else "index.docker.io/library/") ++ opts.ImageInfo.Reference
    else name1
  let mainPkgID := stringToIdentifierStr layerPackageName
  { ID := "SPDXRef-Package-" ++ mainPkgID
    Name := layerPackageName
    Version := opts.OS.Version
    FilesAnalyzed := false
    LicenseConcluded := NOASSERTION
    LicenseDeclared := NOASSERTION
    Description := "apko operating system layer"
    DownloadLocation := NOASSERTION
    Originator := ""
    SourceInfo := ""
    CopyrightText := NOASSERTION
    Checksums := []
    ExternalRefs := [⟨"PACKAGE_MANAGER",
      purlString "oci" "" opts.ImageInfo.Name opts.ImageInfo.LayerDigest
        (ociQualifiers opts) "", "purl"⟩] }

/-- `imagePackage` (spdx.go:148-189): the image node, built only when an
image digest is present. -/
def imagePackage (opts : SbomOptions) : Package :=
  { ID := stringToIdentifierStr ("SPDXRef-Package-" ++ opts.ImageInfo.ImageDigest)
    Name := opts.ImageInfo.Name ++ "@" ++ opts.ImageInfo.ImageDigest
    Version := ""
    FilesAnalyzed := false
    LicenseConcluded := NOASSERTION
    LicenseDeclared := NOASSERTION
    Description := "apko container image"
    DownloadLocation := NOASSERTION
    Originator := ""
    SourceInfo := ""
    CopyrightText := NOASSERTION
    Checksums := [{ Algorithm := "SHA256", Value := trimSha256 opts.ImageInfo.ImageDigest }]
    ExternalRefs := [⟨"PACKAGE_MANAGER",
      purlString "oci" "" opts.ImageInfo.Name opts.ImageInfo.ImageDigest
        (ociQualifiers opts) "", "purl"⟩] }

/-- `apkPackage` (spdx.go:192-226): the node for one resolved apk package
(its error result is always nil in the source). -/
def apkPackage (opts : SbomOptions) (pkg : ApkPackage) : Package :=
  { ID := stringToIdentifierStr ("SPDXRef-Package-" ++ pkg.Name ++ "-" ++ pkg.Version)
    Name := pkg.Name
    Version := pkg.Version
    FilesAnalyzed := false
    LicenseConcluded := pkg.License
    LicenseDeclared := NOASSERTION
    Description := pkg.Description
    DownloadLocation := pkg.URL
    Originator := pkg.Maintainer
    SourceInfo := "Package info from apk database"
    CopyrightText := NOASSERTION
    Checksums := [{ Algorithm := "SHA1", Value := hexOfBytes pkg.Checksum }]
    ExternalRefs := [⟨"PACKAGE_MANAGER",
      purlString "apk" opts.OS.ID pkg.Name pkg.Version
        [("arch", archToAPK opts.ImageInfo.Arch)] "", "purl"⟩] }

/-- The identifier the generator overwrites onto each apk package node
(spdx.go:118-120): the layer ID is mixed in to avoid clashes. -/
def apkId (opts : SbomOptions) (pkg : ApkPackage) : String :=
  stringToIdentifierStr
    ("SPDXRef-Package-" ++ (layerPackage opts).ID ++ "-" ++ pkg.Name ++ "-" ++ pkg.Version)

/-- The package loop of `Generate` (spdx.go:111-130): for each resolved
package, append its node (with the layer-qualified ID) and a CONTAINS
relationship from the layer to it. -/
def apkLoop (opts : SbomOptions) : List ApkPackage → List Package × List Relationship
  | [] => ([], [])
  | pkg :: rest =>
    let p := { apkPackage opts pkg with ID := apkId opts pkg }
    let (ps, rs) := apkLoop opts rest
    (p :: ps, { Element := (layerPackage opts).ID, RelType := "CONTAINS", Related := p.ID } :: rs)

/-- `Generate` (spdx.go:65-146), up to the point where the document is
serialized: the pure document value that is JSON-encoded to the output path.
Every error branch before serialization is dead code (`layerPackage` and
`apkPackage` always return nil errors), so the document construction is
total. -/
def generateDoc (opts : SbomOptions) : Document :=
  let documentName := if opts.ImageInfo.LayerDigest ≠ "" then
      "sbom" ++ "-" ++ opts.ImageInfo.LayerDigest else "sbom"
  let layerPkg := layerPackage opts
  let pre : List Package × List Relationship × List String :=
    if opts.ImageInfo.ImageDigest ≠ "" then
      ([imagePackage opts],
        [{ Element := (imagePackage opts).ID, RelType := "CONTAINS", Related := layerPkg.ID }],
        [(imagePackage opts).ID])
    else ([], [], [layerPkg.ID])
  let apks := apkLoop opts opts.Packages
  { ID := "SPDXRef-DOCUMENT"
    Name := documentName
    Version := "SPDX-2.2"
    CreationInfo := ⟨formatRFC3339 opts.ImageInfo.SourceDateEpoch,
      ["Tool: apko (" ++ gitVersion ++ ")", "Organization: Chainguard, Inc"], "3.16"⟩
    DataLicense := "CC0-1.0"
    Namespace := "https://spdx.org/spdxdocs/apko/"
    DocumentDescribes := pre.2.2
    Packages := pre.1 ++ layerPkg :: apks.1
    Relationships := pre.2.1 ++ apks.2 }

/-! ## Build options and filesystem tree (pkg/build, pkg/options) -/

/-- The build metadata fields read or written by the code under src/
(pkg/options.Options). -/
structure BuildOptions where
  ImageName : String := ""
  Tags : List String := []
  Repository : String := ""
  ImageDigest : String := ""
  LayerDigest : String := ""
  Reference : String := ""
  Arch : String := ""
  OSId : String := ""
  OSVersion : String := ""
  SourceDateEpoch : Int := 0
  TarballPath : String := ""
  TempDirPath : String := "/tmp/apko"
deriving DecidableEq

/-- The filesystem tree: a list of (path, content) entries. -/
abbrev Tree : Type := List (String × String)

/-! ## Tarball encoder (build_implementation.go:42-93) -/

/-- The tarball context built by `tarball.NewContext(WithSourceDateEpoch …)`:
the only datum the source puts into it is the fixed source timestamp. -/
structure TarCtx where
  sourceDateEpoch : Int
deriving DecidableEq

/-- A simple injective byte rendering of an integer, used by the modelled
serializers below. -/
def intBytes (i : Int) : List Nat :=
  (if i < 0 then 1 else 0) :: natDecDigits i.natAbs

/-- Modelled from the spec: the external go-apk tarball writer (`tw.WriteTar`)
serializes the tree in one traversal, normalizing every entry's timestamp to
the context's fixed source-date epoch; a pure function of the context and the
tree content. -/
def writeTar (ctx : TarCtx) (fs : Tree) : List Nat :=
  fs.foldr (fun en acc =>
    strBytes en.1 ++ 0 :: strBytes en.2 ++ 0 :: intBytes ctx.sourceDateEpoch ++ acc) []

/-- Modelled from the spec: gzip compression as a pure function of the input
bytes (the source never sets a gzip mod-time, so the header is fixed). -/
def gzipBytes (l : List Nat) : List Nat :=
  31 :: 139 :: 8 :: l ++ [l.length % 256]

/-- Modelled from the spec: the SHA-256 accumulator as a pure digest function
of the byte stream it observes. -/
def sha256M (l : List Nat) : List Nat :=
  [l.length, l.foldl (fun a b => (a * 131 + b) % 4294967291) 17]

/-- Modelled from the spec: `o.TempDir()` of the options package. -/
def tempDir (o : BuildOptions) : String := o.TempDirPath

/-- Modelled from the spec: `o.TarballFileName()` of the options package. -/
def tarballFileName (o : BuildOptions) : String := o.ImageName ++ ".tar.gz"

/-- The result tuple of `BuildTarball`: output path, diffID (uncompressed
digest), digest (compressed digest), compressed byte size. -/
structure TarballResult where
  name : String
  diffid : List Nat
  digest : List Nat
  size : Nat
deriving DecidableEq

/-- `BuildTarball` (build_implementation.go:42-93). The `wallClock` and
`machineId` arguments model the ambient wall-clock time and machine identity
that the source never reads: the tar context is built from
`bc.o.SourceDateEpoch` alone. The options are returned updated because the
source assigns `bc.o.TarballPath = outfile.Name()` (line 57). The diffID
accumulator observes the uncompressed tar stream and the digest accumulator
the compressed bytes, both from the single `WriteTar` pass. -/
def buildTarball (wallClock machineId : Nat) (o : BuildOptions) (fs : Tree) :
    BuildOptions × TarballResult :=
  let path := if o.TarballPath ≠ "" then o.TarballPath
    else tempDir o ++ "/" ++ tarballFileName o
  let o' := { o with TarballPath := path }
  let tarBytes := writeTar { sourceDateEpoch := o.SourceDateEpoch } fs
  let gz := gzipBytes tarBytes
  (o', { name := path, diffid := sha256M tarBytes, digest := sha256M gz, size := gz.length })

/-! ## Mutation pipeline (build_implementation.go:95-162) -/

/-- Build errors: a base message, the distinguished
`ErrOSReleaseAlreadyPresent` sentinel, or a wrapped error
(`fmt.Errorf("...: %w", err)`). -/
inductive BErr where
  | osReleaseAlreadyPresent : BErr
  | base : String → BErr
  | wrapped : String → BErr → BErr
deriving DecidableEq

/-- `errors.Is(err, ErrOSReleaseAlreadyPresent)`: unwraps through the wrap
chain looking for the sentinel. -/
def isOSReleasePresent : BErr → Bool
  | .osReleaseAlreadyPresent => true
  | .base _ => false
  | .wrapped _ e => isOSReleasePresent e

/-- Is the outermost layer of an error a context wrap (`fmt.Errorf` with
`%w`)? -/
def isWrapped : BErr → Bool
  | .wrapped _ _ => true
  | .osReleaseAlreadyPresent => false
  | .base _ => false

/-- The state a pipeline step may touch: the filesystem tree, the build
options (tag list), and the log of warnings. -/
structure BuildState where
  fs : Tree
  o : BuildOptions
  warnings : List String
deriving DecidableEq

/-- A pipeline step: mutates the state and possibly reports an error; on an
error the partially mutated state is kept (no rollback, per the source). -/
def StepFn : Type := BuildState → Option BErr × BuildState

/-- The step implementations `buildImage` calls.  Their bodies live in this
repository outside src/ (and in external packages), so they are parameters
of the pipeline model; `buildImage` itself is translated from the source. -/
structure BuildSteps where
  /-- `bc.apk.FixateWorld` -/
  fixateWorld : StepFn
  /-- `chainguardAPK.AdditionalTags`: the tag list derived from the tree. -/
  adTagsExt : BuildState → Except BErr (Option (List String))
  /-- `mutateAccounts` -/
  mutateAccounts : StepFn
  /-- `mutatePaths` -/
  mutatePaths : StepFn
  /-- `GenerateOSRelease` -/
  generateOSRelease : StepFn
  /-- `bc.s6.WriteSupervisionTree` -/
  writeSupervisionTree : StepFn
  /-- `bc.apk.GetInstalled` -/
  getInstalled : BuildState → Except BErr (List String)
  /-- `installBusyboxLinks` -/
  installBusyboxLinks : List String → StepFn
  /-- `installLdconfigLinks` -/
  installLdconfigLinks : StepFn
  /-- `installCharDevices` -/
  installCharDevices : StepFn

/-- Tag application shared by `additionalTags` (build_implementation.go:100-103):
a nil result leaves the options untouched, otherwise the tags are appended. -/
def applyAdditionalTags (ts : Option (List String)) (o : BuildOptions) : BuildOptions :=
  match ts with
  | none => o
  | some l => { o with Tags := o.Tags ++ l }

/-- `additionalTags` (build_implementation.go:95-105). -/
def additionalTags (s : BuildSteps) (st : BuildState) : Option BErr × BuildState :=
  match s.adTagsExt st with
  | .error e => (some e, st)
  | .ok ts => (none, { st with o := applyAdditionalTags ts st.o })

/-- Wrap a step result's error with the step's identity
(`fmt.Errorf("<msg>: %w", err)`). -/
def wrapStep (msg : String) (r : Option BErr × BuildState) : Option BErr × BuildState :=
  match r with
  | (some e, st) => (some (.wrapped msg e), st)
  | (none, st) => (none, st)

/-- Steps 6-9 of `buildImage` (build_implementation.go:135-157): supervision
tree, busybox links (fed by `GetInstalled`), ldconfig links, character
devices.  The last three return their errors unwrapped, as in the source. -/
def buildImageTail (s : BuildSteps) (st : BuildState) : Option BErr × BuildState :=
  match wrapStep "failed to write supervision tree" (s.writeSupervisionTree st) with
  | (some e, st1) => (some e, st1)
  | (none, st1) =>
    match s.getInstalled st1 with
    | .error e => (some (.wrapped "getting installed packages" e), st1)
    | .ok installed =>
      match s.installBusyboxLinks installed st1 with
      | (some e, st2) => (some e, st2)
      | (none, st2) =>
        match s.installLdconfigLinks st2 with
        | (some e, st3) => (some e, st3)
        | (none, st3) => s.installCharDevices st3

/-- Step 5 of `buildImage` (build_implementation.go:127-133) and the rest of
the pipeline: an `ErrOSReleaseAlreadyPresent` failure is logged as a warning
and the pipeline continues; any other failure is wrapped and aborts. -/
def buildImageFrom5 (s : BuildSteps) (st : BuildState) : Option BErr × BuildState :=
  match s.generateOSRelease st with
  | (some e, st1) =>
    if isOSReleasePresent e then
      buildImageTail s
        { st1 with warnings := st1.warnings ++ ["did not generate /etc/os-release"] }
    else (some (.wrapped "failed to generate /etc/os-release" e), st1)
  | (none, st1) => buildImageTail s st1

/-- Steps 3-4 of `buildImage` (build_implementation.go:119-125) and the rest
of the pipeline. -/
def buildImageFrom3 (s : BuildSteps) (st : BuildState) : Option BErr × BuildState :=
  match wrapStep "failed to mutate accounts" (s.mutateAccounts st) with
  | (some e, st1) => (some e, st1)
  | (none, st1) =>
    match wrapStep "failed to mutate paths" (s.mutatePaths st1) with
    | (some e, st2) => (some e, st2)
    | (none, st2) => buildImageFrom5 s st2

/-- `buildImage` (build_implementation.go:107-162): the fixed-order mutation
pipeline, halting at the first fatal error, each failure wrapped with the
step's identity. -/
def buildImage (s : BuildSteps) (st : BuildState) : Option BErr × BuildState :=
  match wrapStep "installing apk packages" (s.fixateWorld st) with
  | (some e, st1) => (some e, st1)
  | (none, st1) =>
    match wrapStep "adding additional tags" (additionalTags s st1) with
    | (some e, st2) => (some e, st2)
    | (none, st2) => buildImageFrom3 s st2

/-- Modelled from the spec: `GenerateOSRelease` (pkg/build, outside src/) —
if the target file already exists it returns the sentinel without touching
the tree, otherwise it writes the descriptor file. -/
def generateOSReleaseModel (content : String) (st : BuildState) : Option BErr × BuildState :=
  if st.fs.any (fun en => en.1 = "/etc/os-release") then
    (some .osReleaseAlreadyPresent, st)
  else
    (none, { st with fs := st.fs ++ [("/etc/os-release", content)] })

/-! ## Concrete example inputs used by witnesses and counterexamples -/

/-- A resolved package, as the resolver would hand it over. -/
def exPkg : ApkPackage :=
  { Name := "busybox", Version := "1.36.1-r0", License := "GPL-2.0-only",
    Description := "Size optimized toolbox", URL := "https://busybox.net",
    Maintainer := "Sören", Checksum := [16, 255] }

/-- Image metadata with an image digest present. -/
def exImageInfoOnePkg : ImageInfo :=
  { Name := "img", Tag := "latest", Arch := "x86_64",
    ImageDigest := "sha256:0a1b", LayerDigest := "sha256:2c3d" }

/-- Scenario-B-style options: one resolved package, image digest present. -/
def exOptsOnePkg : SbomOptions :=
  { ImageInfo := exImageInfoOnePkg, OS := { ID := "alpine", Version := "3.18" },
    Packages := [exPkg] }

/-- Image metadata with no image digest. -/
def exImageInfoNoDigest : ImageInfo :=
  { Name := "img", LayerDigest := "sha256:2c3d" }

/-- Scenario-A-style options: no resolved packages, no image digest. -/
def exOptsNoPkg : SbomOptions :=
  { ImageInfo := exImageInfoNoDigest, OS := { ID := "alpine", Version := "3.18" },
    Packages := [] }

/-- Image metadata whose digest does not use the sha256 algorithm. -/
def exImageInfoSha512 : ImageInfo :=
  { Name := "img", ImageDigest := "sha512:00" }

/-- Options whose image digest does not use the sha256 algorithm. -/
def exOptsSha512 : SbomOptions :=
  { ImageInfo := exImageInfoSha512 }

/-- Build options with an explicit tarball output path. -/
def exBuildOpts : BuildOptions :=
  { ImageName := "img", Tags := ["t1"], TarballPath := "/out/layer.tar.gz",
    TempDirPath := "/tmp/apko", SourceDateEpoch := 0 }

/-- Build options with no tarball output path configured. -/
def exBuildOptsNoPath : BuildOptions :=
  { ImageName := "img", Tags := ["t1"], TarballPath := "", TempDirPath := "/tmp/apko" }

/-- A small filesystem tree. -/
def exTree : Tree := [("/etc/hosts", "localhost"), ("/bin/sh", "elf")]

/-- A pipeline state. -/
def exState : BuildState := { fs := exTree, o := exBuildOpts, warnings := [] }

/-- A step that succeeds without touching the state. -/
def idStep : StepFn := fun st => (none, st)

/-- Pipeline steps that all succeed and do nothing. -/
def exStepsOk : BuildSteps :=
  { fixateWorld := idStep
    adTagsExt := fun _ => .ok none
    mutateAccounts := idStep
    mutatePaths := idStep
    generateOSRelease := idStep
    writeSupervisionTree := idStep
    getInstalled := fun _ => .ok []
    installBusyboxLinks := fun _ => idStep
    installLdconfigLinks := idStep
    installCharDevices := idStep }

/-- A step that fails with a base error carrying the given message, leaving
the state as it found it. -/
def failStep (msg : String) : StepFn := fun st => (some (.base msg), st)

/-- Steps whose account mutation fails. -/
def exStepsAccountFail : BuildSteps :=
  { exStepsOk with mutateAccounts := failStep "account failure" }

/-- Steps whose package installation fails. -/
def exStepsFixateFail : BuildSteps :=
  { exStepsOk with fixateWorld := failStep "fixate failure" }

/-- Steps whose tag derivation fails. -/
def exStepsTagsFail : BuildSteps :=
  { exStepsOk with adTagsExt := fun _ => .error (.base "tags failure") }

/-- Steps whose path mutation fails. -/
def exStepsPathsFail : BuildSteps :=
  { exStepsOk with mutatePaths := failStep "paths failure" }

/-- Steps whose supervision-tree materialization fails. -/
def exStepsSupervisionFail : BuildSteps :=
  { exStepsOk with writeSupervisionTree := failStep "supervision failure" }

/-- Steps whose installed-package enumeration fails. -/
def exStepsGetInstalledFail : BuildSteps :=
  { exStepsOk with getInstalled := fun _ => .error (.base "installed failure") }

/-- Steps whose busybox-link installation fails. -/
def exStepsBusyboxFail : BuildSteps :=
  { exStepsOk with installBusyboxLinks := fun _ => failStep "busybox failure" }

/-- Steps whose ldconfig-link installation fails. -/
def exStepsLdconfigFail : BuildSteps :=
  { exStepsOk with installLdconfigLinks := failStep "ldconfig failure" }

/-- Steps whose character-device creation fails. -/
def exStepsCharDevFail : BuildSteps :=
  { exStepsOk with installCharDevices := failStep "chardev failure" }

/-- Steps whose OS-release step reports the already-present sentinel. -/
def exStepsOSPresent : BuildSteps :=
  { exStepsOk with generateOSRelease := fun st => (some .osReleaseAlreadyPresent, st) }

/-- Steps whose OS-release step fails with an ordinary error. -/
def exStepsOSFail : BuildSteps :=
  { exStepsOk with generateOSRelease := fun st => (some (.base "io error"), st) }

/-- A state in which the OS-release file is already present. -/
def exStateOSPresent : BuildState :=
  { fs := [("/etc/os-release", "ID=alpine")], o := exBuildOpts, warnings := [] }

/-! ## Lemmas about the identifier transform -/

theorem escapeRun_takeWhile_eq (t : List Nat) :
    escapeRun (t.takeWhile (fun x => !allowedByte x)) ++
      stringToIdentifier (t.dropWhile (fun x => !allowedByte x)) =
    stringToIdentifier t := by
  induction t with
  | nil => simp [List.takeWhile, List.dropWhile, escapeRun, stringToIdentifier]
  | cons x t ih =>
    by_cases hx : allowedByte x
    · simp [List.takeWhile, List.dropWhile, hx, escapeRun, stringToIdentifier]
    · simp only [List.takeWhile, List.dropWhile, hx, Bool.not_false, escapeRun,
        stringToIdentifier, List.append_assoc, if_neg]
      rw [ih]
      simp [stringToIdentifier, hx]

/-- The run-based and the per-byte forms of the transform agree. -/
theorem stringToIdentifierRuns_eq (l : List Nat) :
    stringToIdentifierRuns l = stringToIdentifier l := by
  have key : ∀ n : Nat, ∀ l : List Nat, l.length ≤ n →
      stringToIdentifierRuns l = stringToIdentifier l := by
    intro n
    induction n with
    | zero =>
      intro l hl
      have : l = [] := List.length_eq_zero.mp (Nat.le_zero.mp hl)
      subst this
      simp [stringToIdentifierRuns, stringToIdentifier]
    | succ n ih =>
      intro l hl
      cases l with
      | nil => simp [stringToIdentifierRuns, stringToIdentifier]
      | cons b t =>
        rw [stringToIdentifierRuns]
        by_cases hb : allowedByte b
        · simp only [hb, if_pos]
          rw [ih t (by simp at hl; omega)]
          simp [stringToIdentifier, hb]
        · simp only [hb, Bool.false_eq_true, if_neg, not_false_iff]
          rw [ih (t.dropWhile (fun x => !allowedByte x))
            (by
              have := (List.dropWhile_sublist (l := t) (fun x => !allowedByte x)).length_le
              simp at hl; omega)]
          show escapeRun (b :: t.takeWhile (fun x => !allowedByte x)) ++ _ = _
          simp only [escapeRun, List.append_assoc]
          rw [escapeRun_takeWhile_eq]
          simp [stringToIdentifier, hb]
  exact key l.length l le_rfl

theorem natDecAux_mem : ∀ fuel n d, d ∈ natDecAux fuel n → 48 ≤ d ∧ d ≤ 57 := by
  intro fuel
  induction fuel with
  | zero => intro n d h; simp [natDecAux] at h
  | succ fuel ih =>
    intro n d h
    simp only [natDecAux] at h
    by_cases hn : n < 10
    · rw [if_pos hn] at h; simp at h; omega
    · rw [if_neg hn] at h
      rcases List.mem_append.mp h with h1 | h2
      · exact ih _ _ h1
      · simp at h2
        have : n % 10 < 10 := Nat.mod_lt n (by norm_num)
        omega

theorem escapeByte_mem (b d : Nat) (h : d ∈ escapeByte b) : allowedByte d = true := by
  simp only [escapeByte, List.mem_cons] at h
  rcases h with rfl | h
  · decide
  · have := natDecAux_mem _ _ _ h
    simp only [allowedByte, Bool.or_eq_true, Bool.and_eq_true, decide_eq_true_eq, beq_iff_eq]
    omega

theorem mem_stringToIdentifier (l : List Nat) (b : Nat) (h : b ∈ stringToIdentifier l) :
    allowedByte b = true := by
  induction l with
  | nil => simp [stringToIdentifier] at h
  | cons x t ih =>
    simp only [stringToIdentifier] at h
    by_cases hx : allowedByte x
    · rw [if_pos hx] at h
      rcases List.mem_cons.mp h with rfl | h
      · exact hx
      · exact ih h
    · rw [if_neg hx] at h
      rcases List.mem_append.mp h with h1 | h2
      · exact escapeByte_mem x b h1
      · exact ih h2

theorem stringToIdentifier_fixed (l : List Nat) (h : ∀ b ∈ l, allowedByte b = true) :
    stringToIdentifier l = l := by
  induction l with
  | nil => rfl
  | cons x t ih =>
    have hx := h x (List.mem_cons_self x t)
    simp only [stringToIdentifier, hx, if_pos]
    rw [ih (fun b hb => h b (List.mem_cons_of_mem _ hb))]

/-! ## Claim theorems: the identifier transform -/

/-- C3: the identifier-sanitizing transform maps `"Hello World!"` to
`"HelloC32WorldC33"` — each disallowed character (the space and the `!`) is
replaced by `"C"` followed by its decimal code point — and escapes the
two-byte character `é` byte-by-byte, producing the two separate
`"C"`-prefixed segments `"C195"` and `"C169"` rather than a single segment
for the character. -/
theorem claim_C3_identifier_concrete :
    stringToIdentifierRuns (strBytes "Hello World!") = strBytes "HelloC32WorldC33" ∧
    stringToIdentifierRuns (strBytes "é") = strBytes "C195" ++ strBytes "C169" ∧
    strBytes "é" = [195, 169] ∧
    stringToIdentifierStr "Hello World!" = "HelloC32WorldC33" :=
  ⟨by rw [stringToIdentifierRuns_eq]; decide,
   by rw [stringToIdentifierRuns_eq]; decide,
   by decide, by decide⟩

/-- C10: for every input byte string, every byte of the transform's output is
in the allowed set `[a-zA-Z0-9.-]`, and consequently the transform is
idempotent: applying it to its own output returns the output unchanged. -/
theorem claim_C10_closed_idempotent (l : List Nat) :
    (∀ b, b ∈ stringToIdentifier l → allowedByte b = true) ∧
    stringToIdentifier (stringToIdentifier l) = stringToIdentifier l :=
  ⟨fun b h => mem_stringToIdentifier l b h,
   stringToIdentifier_fixed _ (fun b h => mem_stringToIdentifier l b h)⟩

/-- C10 witness: the output of the transform on `"a b"` contains the byte 67
(`C`), which is allowed, and the transform is idempotent on that input. -/
theorem claim_C10_witness :
    allowedByte 67 = true ∧
    stringToIdentifier (stringToIdentifier (strBytes "a b")) =
      stringToIdentifier (strBytes "a b") :=
  ⟨(claim_C10_closed_idempotent (strBytes "a b")).1 67 (by decide),
   (claim_C10_closed_idempotent (strBytes "a b")).2⟩

/-! ## Lemmas about the SPDX generator -/

theorem apkLoop_fst (opts : SbomOptions) : ∀ l : List ApkPackage,
    (apkLoop opts l).1 = l.map (fun p => { apkPackage opts p with ID := apkId opts p }) := by
  intro l
  induction l with
  | nil => rfl
  | cons p rest ih => simp [apkLoop, ih]

theorem apkLoop_snd (opts : SbomOptions) : ∀ l : List ApkPackage,
    (apkLoop opts l).2 = l.map (fun p =>
      (⟨(layerPackage opts).ID, "CONTAINS", apkId opts p⟩ : Relationship)) := by
  intro l
  induction l with
  | nil => rfl
  | cons p rest ih => simp [apkLoop, ih]

theorem generateDoc_Packages (opts : SbomOptions) :
    (generateDoc opts).Packages =
      (if opts.ImageInfo.ImageDigest ≠ "" then [imagePackage opts] else []) ++
        layerPackage opts :: (apkLoop opts opts.Packages).1 := by
  by_cases hd : opts.ImageInfo.ImageDigest = "" <;> simp [generateDoc, hd]

theorem generateDoc_Relationships (opts : SbomOptions) :
    (generateDoc opts).Relationships =
      (if opts.ImageInfo.ImageDigest ≠ "" then
        [(⟨(imagePackage opts).ID, "CONTAINS", (layerPackage opts).ID⟩ : Relationship)]
      else []) ++ (apkLoop opts opts.Packages).2 := by
  by_cases hd : opts.ImageInfo.ImageDigest = "" <;> simp [generateDoc, hd]

theorem generateDoc_Describes (opts : SbomOptions) :
    (generateDoc opts).DocumentDescribes =
      [if opts.ImageInfo.ImageDigest ≠ "" then (imagePackage opts).ID
       else (layerPackage opts).ID] := by
  by_cases hd : opts.ImageInfo.ImageDigest = "" <;> simp [generateDoc, hd]

/-! ## Claim theorems: the SPDX generator -/

/-- C2: in every generated SBOM document, both endpoint identifiers of every
relationship appear among the identifiers of the document's package nodes,
and `documentDescribes` contains exactly one identifier — the image node's
identifier when an image digest is present, otherwise the layer node's. -/
theorem claim_C2_sbom_closure (opts : SbomOptions) :
    (∀ rel, rel ∈ (generateDoc opts).Relationships →
      rel.Element ∈ (generateDoc opts).Packages.map Package.ID ∧
      rel.Related ∈ (generateDoc opts).Packages.map Package.ID) ∧
    (generateDoc opts).DocumentDescribes =
      [if opts.ImageInfo.ImageDigest ≠ "" then (imagePackage opts).ID
       else (layerPackage opts).ID] := by
  refine ⟨?_, generateDoc_Describes opts⟩
  intro rel hrel
  rw [generateDoc_Relationships, apkLoop_snd] at hrel
  rw [generateDoc_Packages, apkLoop_fst]
  rcases List.mem_append.mp hrel with h1 | h2
  · by_cases hd : opts.ImageInfo.ImageDigest ≠ ""
    · rw [if_pos hd] at h1
      simp only [List.mem_singleton] at h1
      subst h1
      constructor
      · simp [hd]
      · simp [hd]
    · rw [if_neg hd] at h1
      simp at h1
  · rcases List.mem_map.mp h2 with ⟨p, hp, rfl⟩
    constructor
    · simp
    · simp only [List.map_append, List.map_cons, List.map_map, List.mem_append,
        List.mem_cons, List.mem_map]
      right; right
      exact ⟨p, hp, rfl⟩

/-- C2 witness: on the one-package, digest-present input, the image→layer
relationship's endpoints are both among the document's package identifiers
and `documentDescribes` holds the image identifier. -/
theorem claim_C2_witness :
    (imagePackage exOptsOnePkg).ID ∈ (generateDoc exOptsOnePkg).Packages.map Package.ID ∧
    (layerPackage exOptsOnePkg).ID ∈ (generateDoc exOptsOnePkg).Packages.map Package.ID ∧
    (generateDoc exOptsOnePkg).DocumentDescribes =
      [if exOptsOnePkg.ImageInfo.ImageDigest ≠ "" then (imagePackage exOptsOnePkg).ID
       else (layerPackage exOptsOnePkg).ID] :=
  ⟨((claim_C2_sbom_closure exOptsOnePkg).1
      ⟨(imagePackage exOptsOnePkg).ID, "CONTAINS", (layerPackage exOptsOnePkg).ID⟩
      (by decide)).1,
   ((claim_C2_sbom_closure exOptsOnePkg).1
      ⟨(imagePackage exOptsOnePkg).ID, "CONTAINS", (layerPackage exOptsOnePkg).ID⟩
      (by decide)).2,
   (claim_C2_sbom_closure exOptsOnePkg).2⟩

/-- C6: for one resolved package with an image digest present, the document
has exactly the three package nodes image, layer and package, and exactly the
two CONTAINS relationships image→layer and layer→package. -/
theorem claim_C6_one_package (opts : SbomOptions) (p : ApkPackage)
    (h1 : opts.Packages = [p]) (h2 : opts.ImageInfo.ImageDigest ≠ "") :
    (generateDoc opts).Packages =
      [imagePackage opts, layerPackage opts, { apkPackage opts p with ID := apkId opts p }] ∧
    (generateDoc opts).Relationships =
      [⟨(imagePackage opts).ID, "CONTAINS", (layerPackage opts).ID⟩,
       ⟨(layerPackage opts).ID, "CONTAINS", apkId opts p⟩] := by
  constructor
  · rw [generateDoc_Packages, apkLoop_fst, h1]
    simp [h2]
  · rw [generateDoc_Relationships, apkLoop_snd, h1]
    simp [h2]

/-- C6 witness: the scenario evaluated on concrete one-package,
digest-present options. -/
theorem claim_C6_witness :
    (generateDoc exOptsOnePkg).Packages =
      [imagePackage exOptsOnePkg, layerPackage exOptsOnePkg,
        { apkPackage exOptsOnePkg exPkg with ID := apkId exOptsOnePkg exPkg }] ∧
    (generateDoc exOptsOnePkg).Relationships =
      [⟨(imagePackage exOptsOnePkg).ID, "CONTAINS", (layerPackage exOptsOnePkg).ID⟩,
       ⟨(layerPackage exOptsOnePkg).ID, "CONTAINS", apkId exOptsOnePkg exPkg⟩] :=
  claim_C6_one_package exOptsOnePkg exPkg rfl (by decide)

/-- C7: for zero resolved packages and no image digest, the document has
exactly one package node — the layer — and zero relationships. -/
theorem claim_C7_no_packages (opts : SbomOptions)
    (h1 : opts.Packages = []) (h2 : opts.ImageInfo.ImageDigest = "") :
    (generateDoc opts).Packages = [layerPackage opts] ∧
    (generateDoc opts).Relationships = [] := by
  constructor
  · rw [generateDoc_Packages, apkLoop_fst, h1]
    simp [h2]
  · rw [generateDoc_Relationships, apkLoop_snd, h1]
    simp [h2]

/-- C7 witness: the scenario evaluated on concrete zero-package,
no-digest options. -/
theorem claim_C7_witness :
    (generateDoc exOptsNoPkg).Packages = [layerPackage exOptsNoPkg] ∧
    (generateDoc exOptsNoPkg).Relationships = [] :=
  claim_C7_no_packages exOptsNoPkg rfl rfl

/-- C8 counterexample: for the digest `"sha512:00"` the claim fails — the
code hardcodes the algorithm `"SHA256"` and only trims a `"sha256:"` prefix,
so the checksum value is the whole string `"sha512:00"`, not the hex part
`"00"` obtained by splitting the combined "algorithm:hex" string. -/
theorem claim_C8_counterexample :
    exOptsSha512.ImageInfo.ImageDigest = "sha512:00" ∧
    digestAlgo exOptsSha512.ImageInfo.ImageDigest = "sha512" ∧
    digestHex exOptsSha512.ImageInfo.ImageDigest = "00" ∧
    (imagePackage exOptsSha512).Checksums =
      [{ Algorithm := "SHA256", Value := "sha512:00" }] ∧
    ¬ ((imagePackage exOptsSha512).Checksums.map Checksum.Value =
        [digestHex exOptsSha512.ImageInfo.ImageDigest]) ∧
    ¬ ((imagePackage exOptsSha512).Checksums.map Checksum.Algorithm =
        [digestAlgo exOptsSha512.ImageInfo.ImageDigest]) := by
  decide

/-- C8 amended: the image node's checksum list has exactly one entry, whose
algorithm is the fixed string "SHA256" and whose value is the image digest
with a leading "sha256:" prefix removed (for digests of the form
"sha256:hex" this equals the hex part); when no image digest is known the
image node is omitted from the document rather than an error raised. -/
theorem claim_C8_amended (opts : SbomOptions) :
    ((imagePackage opts).Checksums =
      [{ Algorithm := "SHA256", Value := trimSha256 opts.ImageInfo.ImageDigest }]) ∧
    (opts.ImageInfo.ImageDigest ≠ "" →
      (generateDoc opts).Packages =
        imagePackage opts :: layerPackage opts :: (apkLoop opts opts.Packages).1) ∧
    (opts.ImageInfo.ImageDigest = "" →
      (generateDoc opts).Packages =
        layerPackage opts :: (apkLoop opts opts.Packages).1) := by
  refine ⟨rfl, ?_, ?_⟩
  · intro h
    rw [generateDoc_Packages]
    simp [h]
  · intro h
    rw [generateDoc_Packages]
    simp [h]

/-- C8 amended witness: with a digest present the image node leads the
package list; with no digest the package list starts at the layer node. -/
theorem claim_C8_amended_witness :
    (generateDoc exOptsOnePkg).Packages =
      imagePackage exOptsOnePkg :: layerPackage exOptsOnePkg ::
        (apkLoop exOptsOnePkg exOptsOnePkg.Packages).1 ∧
    (generateDoc exOptsNoPkg).Packages =
      layerPackage exOptsNoPkg :: (apkLoop exOptsNoPkg exOptsNoPkg.Packages).1 :=
  ⟨(claim_C8_amended exOptsOnePkg).2.1 (by decide),
   (claim_C8_amended exOptsNoPkg).2.2 rfl⟩

/-! ## Claim theorems: tarball encoder and mutation pipeline -/

/-- C1: two runs of the tarball encoder over the same tree content with the
same fixed source timestamp produce the same archive bytes — hence the same
size — and the same (digest, diffID) pair, independently of the ambient
wall-clock time and machine identity, which the encoder never reads. -/
theorem claim_C1_tarball_deterministic (wc1 m1 wc2 m2 : Nat) (o : BuildOptions) (fs : Tree) :
    buildTarball wc1 m1 o fs = buildTarball wc2 m2 o fs ∧
    (buildTarball wc1 m1 o fs).2.digest = (buildTarball wc2 m2 o fs).2.digest ∧
    (buildTarball wc1 m1 o fs).2.diffid = (buildTarball wc2 m2 o fs).2.diffid ∧
    (buildTarball wc1 m1 o fs).2.size = (buildTarball wc2 m2 o fs).2.size :=
  ⟨rfl, rfl, rfl, rfl⟩

/-- C4 counterexample: a first fatal error in the ldconfig-link step aborts
the pipeline but is returned by the orchestrator as the step's own bare
error, not wrapped with the failing step's identity — buildImage's last
three steps return `err` unchanged (build_implementation.go:145-157). -/
theorem claim_C4_counterexample :
    buildImage exStepsLdconfigFail exState = (some (.base "ldconfig failure"), exState) ∧
    isWrapped (.base "ldconfig failure") = false :=
  ⟨rfl, rfl⟩

/-- C4 amended: the first fatal error aborts all remaining steps and is
returned with the state the failing step left (so no later step runs or
touches the tree).  The package-installation, tag-derivation,
account-mutation, path-mutation, OS-release (non-recoverable case),
supervision-tree and installed-package-enumeration failures are returned
wrapped with the failing step's identity; the busybox-link, ldconfig-link
and char-device failures are returned as the step's own error, unwrapped by
the orchestrator.  In particular (conjunct 3), an account-mutation failure
leaves path mutation and every later step unexecuted. -/
theorem claim_C4_amended :
    (∀ s st0 e st', s.fixateWorld st0 = (some e, st') →
      buildImage s st0 = (some (.wrapped "installing apk packages" e), st')) ∧
    (∀ s st0 st1 e,
      s.fixateWorld st0 = (none, st1) →
      s.adTagsExt st1 = .error e →
      buildImage s st0 = (some (.wrapped "adding additional tags" e), st1)) ∧
    (∀ s st0 st1 st2 e st',
      s.fixateWorld st0 = (none, st1) →
      additionalTags s st1 = (none, st2) →
      s.mutateAccounts st2 = (some e, st') →
      buildImage s st0 = (some (.wrapped "failed to mutate accounts" e), st')) ∧
    (∀ s st0 st1 st2 st3 e st',
      s.fixateWorld st0 = (none, st1) →
      additionalTags s st1 = (none, st2) →
      s.mutateAccounts st2 = (none, st3) →
      s.mutatePaths st3 = (some e, st') →
      buildImage s st0 = (some (.wrapped "failed to mutate paths" e), st')) ∧
    (∀ s st0 st1 st2 st3 st4 e st',
      s.fixateWorld st0 = (none, st1) →
      additionalTags s st1 = (none, st2) →
      s.mutateAccounts st2 = (none, st3) →
      s.mutatePaths st3 = (none, st4) →
      s.generateOSRelease st4 = (some e, st') →
      isOSReleasePresent e = false →
      buildImage s st0 = (some (.wrapped "failed to generate /etc/os-release" e), st')) ∧
    (∀ s st0 st1 st2 st3 st4 st5 e st',
      s.fixateWorld st0 = (none, st1) →
      additionalTags s st1 = (none, st2) →
      s.mutateAccounts st2 = (none, st3) →
      s.mutatePaths st3 = (none, st4) →
      s.generateOSRelease st4 = (none, st5) →
      s.writeSupervisionTree st5 = (some e, st') →
      buildImage s st0 = (some (.wrapped "failed to write supervision tree" e), st')) ∧
    (∀ s st0 st1 st2 st3 st4 st5 st6 e,
      s.fixateWorld st0 = (none, st1) →
      additionalTags s st1 = (none, st2) →
      s.mutateAccounts st2 = (none, st3) →
      s.mutatePaths st3 = (none, st4) →
      s.generateOSRelease st4 = (none, st5) →
      s.writeSupervisionTree st5 = (none, st6) →
      s.getInstalled st6 = .error e →
      buildImage s st0 = (some (.wrapped "getting installed packages" e), st6)) ∧
    (∀ s st0 st1 st2 st3 st4 st5 st6 installed e st',
      s.fixateWorld st0 = (none, st1) →
      additionalTags s st1 = (none, st2) →
      s.mutateAccounts st2 = (none, st3) →
      s.mutatePaths st3 = (none, st4) →
      s.generateOSRelease st4 = (none, st5) →
      s.writeSupervisionTree st5 = (none, st6) →
      s.getInstalled st6 = .ok installed →
      s.installBusyboxLinks installed st6 = (some e, st') →
      buildImage s st0 = (some e, st')) ∧
    (∀ s st0 st1 st2 st3 st4 st5 st6 installed st7 e st',
      s.fixateWorld st0 = (none, st1) →
      additionalTags s st1 = (none, st2) →
      s.mutateAccounts st2 = (none, st3) →
      s.mutatePaths st3 = (none, st4) →
      s.generateOSRelease st4 = (none, st5) →
      s.writeSupervisionTree st5 = (none, st6) →
      s.getInstalled st6 = .ok installed →
      s.installBusyboxLinks installed st6 = (none, st7) →
      s.installLdconfigLinks st7 = (some e, st') →
      buildImage s st0 = (some e, st')) ∧
    (∀ s st0 st1 st2 st3 st4 st5 st6 installed st7 st8 e st',
      s.fixateWorld st0 = (none, st1) →
      additionalTags s st1 = (none, st2) →
      s.mutateAccounts st2 = (none, st3) →
      s.mutatePaths st3 = (none, st4) →
      s.generateOSRelease st4 = (none, st5) →
      s.writeSupervisionTree st5 = (none, st6) →
      s.getInstalled st6 = .ok installed →
      s.installBusyboxLinks installed st6 = (none, st7) →
      s.installLdconfigLinks st7 = (none, st8) →
      s.installCharDevices st8 = (some e, st') →
      buildImage s st0 = (some e, st')) := by
  refine ⟨?_, ?_, ?_, ?_, ?_, ?_, ?_, ?_, ?_, ?_⟩
  · intro s st0 e st' h1
    simp [buildImage, wrapStep, h1]
  · intro s st0 st1 e h1 h2
    simp [buildImage, additionalTags, wrapStep, h1, h2]
  · intro s st0 st1 st2 e st' h1 h2 h3
    simp [buildImage, buildImageFrom3, wrapStep, h1, h2, h3]
  · intro s st0 st1 st2 st3 e st' h1 h2 h3 h4
    simp [buildImage, buildImageFrom3, wrapStep, h1, h2, h3, h4]
  · intro s st0 st1 st2 st3 st4 e st' h1 h2 h3 h4 h5 h6
    simp [buildImage, buildImageFrom3, buildImageFrom5, wrapStep, h1, h2, h3, h4, h5, h6]
  · intro s st0 st1 st2 st3 st4 st5 e st' h1 h2 h3 h4 h5 h6
    simp [buildImage, buildImageFrom3, buildImageFrom5, buildImageTail, wrapStep,
      h1, h2, h3, h4, h5, h6]
  · intro s st0 st1 st2 st3 st4 st5 st6 e h1 h2 h3 h4 h5 h6 h7
    simp [buildImage, buildImageFrom3, buildImageFrom5, buildImageTail, wrapStep,
      h1, h2, h3, h4, h5, h6, h7]
  · intro s st0 st1 st2 st3 st4 st5 st6 installed e st' h1 h2 h3 h4 h5 h6 h7 h8
    simp [buildImage, buildImageFrom3, buildImageFrom5, buildImageTail, wrapStep,
      h1, h2, h3, h4, h5, h6, h7, h8]
  · intro s st0 st1 st2 st3 st4 st5 st6 installed st7 e st' h1 h2 h3 h4 h5 h6 h7 h8 h9
    simp [buildImage, buildImageFrom3, buildImageFrom5, buildImageTail, wrapStep,
      h1, h2, h3, h4, h5, h6, h7, h8, h9]
  · intro s st0 st1 st2 st3 st4 st5 st6 installed st7 st8 e st' h1 h2 h3 h4 h5 h6 h7 h8 h9 h10
    simp [buildImage, buildImageFrom3, buildImageFrom5, buildImageTail, wrapStep,
      h1, h2, h3, h4, h5, h6, h7, h8, h9, h10]

/-- C4 amended witness: for each of the ten failure points, a concrete
pipeline failing first at that step — the build aborts there with the state
untouched by later steps, wrapped with the step's identity for the first
seven and bare for the last three. -/
theorem claim_C4_amended_witness :
    buildImage exStepsFixateFail exState =
      (some (.wrapped "installing apk packages" (.base "fixate failure")), exState) ∧
    buildImage exStepsTagsFail exState =
      (some (.wrapped "adding additional tags" (.base "tags failure")), exState) ∧
    buildImage exStepsAccountFail exState =
      (some (.wrapped "failed to mutate accounts" (.base "account failure")), exState) ∧
    buildImage exStepsPathsFail exState =
      (some (.wrapped "failed to mutate paths" (.base "paths failure")), exState) ∧
    buildImage exStepsOSFail exState =
      (some (.wrapped "failed to generate /etc/os-release" (.base "io error")), exState) ∧
    buildImage exStepsSupervisionFail exState =
      (some (.wrapped "failed to write supervision tree" (.base "supervision failure")), exState) ∧
    buildImage exStepsGetInstalledFail exState =
      (some (.wrapped "getting installed packages" (.base "installed failure")), exState) ∧
    buildImage exStepsBusyboxFail exState = (some (.base "busybox failure"), exState) ∧
    buildImage exStepsLdconfigFail exState = (some (.base "ldconfig failure"), exState) ∧
    buildImage exStepsCharDevFail exState = (some (.base "chardev failure"), exState) :=
  ⟨claim_C4_amended.1 _ _ _ _ rfl,
   claim_C4_amended.2.1 _ _ _ _ rfl rfl,
   claim_C4_amended.2.2.1 _ _ _ _ _ _ rfl rfl rfl,
   claim_C4_amended.2.2.2.1 _ _ _ _ _ _ _ rfl rfl rfl rfl,
   claim_C4_amended.2.2.2.2.1 _ _ _ _ _ _ _ _ rfl rfl rfl rfl rfl rfl,
   claim_C4_amended.2.2.2.2.2.1 _ _ _ _ _ _ _ _ _ rfl rfl rfl rfl rfl rfl,
   claim_C4_amended.2.2.2.2.2.2.1 _ _ _ _ _ _ _ _ _ rfl rfl rfl rfl rfl rfl rfl,
   claim_C4_amended.2.2.2.2.2.2.2.1 _ _ _ _ _ _ _ _ _ _ _ rfl rfl rfl rfl rfl rfl rfl rfl,
   claim_C4_amended.2.2.2.2.2.2.2.2.1 _ _ _ _ _ _ _ _ _ _ _ _
     rfl rfl rfl rfl rfl rfl rfl rfl rfl,
   claim_C4_amended.2.2.2.2.2.2.2.2.2 _ _ _ _ _ _ _ _ _ _ _ _ _
     rfl rfl rfl rfl rfl rfl rfl rfl rfl rfl⟩

/-- C5: if the OS-release file is already present, the OS-release step
reports the sentinel and leaves the state (hence the file) unmodified; on a
sentinel error the pipeline logs the warning and continues with the
remaining steps (so the build succeeds when they do); any other OS-release
failure is wrapped with the step's identity and aborts the pipeline. -/
theorem claim_C5_osrelease_recoverable :
    (∀ content st, st.fs.any (fun en => en.1 = "/etc/os-release") = true →
      generateOSReleaseModel content st = (some .osReleaseAlreadyPresent, st)) ∧
    (∀ s st e st1, s.generateOSRelease st = (some e, st1) → isOSReleasePresent e = true →
      buildImageFrom5 s st =
        buildImageTail s
          { st1 with warnings := st1.warnings ++ ["did not generate /etc/os-release"] }) ∧
    (∀ s st e st1, s.generateOSRelease st = (some e, st1) → isOSReleasePresent e = false →
      buildImageFrom5 s st = (some (.wrapped "failed to generate /etc/os-release" e), st1)) := by
  refine ⟨?_, ?_, ?_⟩
  · intro content st h
    simp [generateOSReleaseModel, h]
  · intro s st e st1 h he
    simp [buildImageFrom5, h, he]
  · intro s st e st1 h he
    simp [buildImageFrom5, h, he]

/-- C5 witness: with the file pre-created the model reports the sentinel and
keeps the state; with a sentinel-reporting step and otherwise no-op steps
the pipeline finishes successfully with the warning logged; with an ordinary
OS-release failure the pipeline aborts with the wrapped error. -/
theorem claim_C5_witness :
    generateOSReleaseModel "ID=alpine" exStateOSPresent =
      (some .osReleaseAlreadyPresent, exStateOSPresent) ∧
    buildImageFrom5 exStepsOSPresent exState =
      (none, { exState with warnings :=
        exState.warnings ++ ["did not generate /etc/os-release"] }) ∧
    buildImageFrom5 exStepsOSFail exState =
      (some (.wrapped "failed to generate /etc/os-release" (.base "io error")), exState) :=
  ⟨claim_C5_osrelease_recoverable.1 "ID=alpine" exStateOSPresent (by decide),
   (claim_C5_osrelease_recoverable.2.1 exStepsOSPresent exState
      .osReleaseAlreadyPresent exState rfl rfl).trans rfl,
   claim_C5_osrelease_recoverable.2.2 exStepsOSFail exState (.base "io error") exState rfl rfl⟩

/-- C9 counterexample: with no tarball path configured the encoder mutates
the metadata — `bc.o.TarballPath` is assigned the actual output path
(build_implementation.go:57), so a field other than the tag list does not
hold its initial value after the encoder has run, contradicting the claim. -/
theorem claim_C9_counterexample :
    exBuildOptsNoPath.TarballPath = "" ∧
    ((buildTarball 0 0 exBuildOptsNoPath exTree).1).TarballPath = "/tmp/apko/img.tar.gz" ∧
    ((buildTarball 0 0 exBuildOptsNoPath exTree).1).TarballPath ≠ exBuildOptsNoPath.TarballPath := by
  decide

/-- C9 amended: across tag derivation and the tarball encoder, every
metadata field holds its initial value except the tag list, to which the
pipeline may append, and the tarball path, which the encoder sets to the
actual output path — unchanged when it was already configured, otherwise
the default temp-dir path.  (The provenance generator is a pure function of
its options and returns them unchanged by construction.) -/
theorem claim_C9_amended (ts : Option (List String)) (wc m : Nat) (o : BuildOptions)
    (fs : Tree) :
    ((buildTarball wc m (applyAdditionalTags ts o) fs).1).ImageName = o.ImageName ∧
    ((buildTarball wc m (applyAdditionalTags ts o) fs).1).Repository = o.Repository ∧
    ((buildTarball wc m (applyAdditionalTags ts o) fs).1).ImageDigest = o.ImageDigest ∧
    ((buildTarball wc m (applyAdditionalTags ts o) fs).1).LayerDigest = o.LayerDigest ∧
    ((buildTarball wc m (applyAdditionalTags ts o) fs).1).Reference = o.Reference ∧
    ((buildTarball wc m (applyAdditionalTags ts o) fs).1).Arch = o.Arch ∧
    ((buildTarball wc m (applyAdditionalTags ts o) fs).1).OSId = o.OSId ∧
    ((buildTarball wc m (applyAdditionalTags ts o) fs).1).OSVersion = o.OSVersion ∧
    ((buildTarball wc m (applyAdditionalTags ts o) fs).1).SourceDateEpoch = o.SourceDateEpoch ∧
    ((buildTarball wc m (applyAdditionalTags ts o) fs).1).TempDirPath = o.TempDirPath ∧
    ((buildTarball wc m (applyAdditionalTags ts o) fs).1).Tags = o.Tags ++ ts.getD [] ∧
    ((buildTarball wc m (applyAdditionalTags ts o) fs).1).TarballPath =
      (if o.TarballPath ≠ "" then o.TarballPath
       else tempDir o ++ "/" ++ tarballFileName o) := by
  cases ts <;> by_cases hp : o.TarballPath ≠ "" <;>
    simp [applyAdditionalTags, buildTarball, tempDir, tarballFileName, hp]

end Apko
